import Mathlib

/-!
Formal model of the Telegram command-router bot in src/bot.py.

The bot receives one text message at a time, classifies it by
case-insensitive prefix/equality matching on the stripped text, and sends
one or more replies.  Network effects (the search HTTP call, the joke HTTP
call, the Vertex AI prediction call) are modelled by an explicit
environment describing what each upstream call would deliver; a Python
exception that the code does not catch is modelled as an explicit error
value threaded out of the function, next to the list of replies that were
already sent.
-/

/-- Python str.strip whitespace set: space, tab, newline,
carriage return, vertical tab, form feed (the ASCII fragment actually
exercised by the bot). -/
def isPySpace (c : Char) : Bool :=
  c == ' ' || c == '\t' || c == '\n' || c == '\r' ||
    c == Char.ofNat 11 || c == Char.ofNat 12

/-- Python str.strip(): remove leading and trailing whitespace. -/
def pyStrip (s : String) : String :=
  ⟨((s.data.dropWhile isPySpace).reverse.dropWhile isPySpace).reverse⟩

/-- Python str.lower() on the ASCII fragment used by the bot. -/
def pyLower (s : String) : String :=
  ⟨s.data.map Char.toLower⟩

/-- Character-list test used by pyStartsWith. -/
def startsWithAux : List Char → List Char → Bool
  | _, [] => true
  | [], _ :: _ => false
  | c :: cs, d :: ds => c == d && startsWithAux cs ds

/-- Python str.startswith(pat). -/
def pyStartsWith (s pat : String) : Bool :=
  startsWithAux s.data pat.data

/-- Python slicing s[n:] (by code points, as Python does). -/
def pyDrop (s : String) (n : Nat) : String :=
  ⟨s.data.drop n⟩

/-- Python f-string rendering of a value that is either a string or None:
str(None) is the four-letter text None. -/
def pyFormatOptStr : Option String → String
  | some s => s
  | none => "None"

/-- The apostrophe character, used inside the literal reply texts. -/
def apos : String :=
  String.singleton (Char.ofNat 39)

/-- The greeting reply of bot.py lines 81-88. -/
def greetingMsg : String :=
  "👋 Hi! I" ++ apos ++ "m a bot powered by Vertex AI (Gemini).\n\n" ++
    "Try:\n" ++
    "- search: Python → Google search\n" ++
    "- solve: 2+2*5 → Math calculation\n" ++
    "- joke → Get a random joke\n" ++
    "- chat: Tell me something about AI → Gemini response"

/-- The /help reply of bot.py line 92. -/
def helpMsg : String :=
  "Available commands:\n- search:<query>\n- solve:<expression>\n- joke\n- chat:<message>"

/-- The acknowledgement sent before a search result, bot.py line 97. -/
def searchingMsg : String :=
  "🔍 Searching..."

/-- The acknowledgement sent before an AI chat result, bot.py line 121. -/
def thinkingMsg : String :=
  "🤖 Thinking..."

/-- The reply for an expression sympify cannot parse, bot.py line 108. -/
def invalidExprMsg : String :=
  "❌ Invalid mathematical expression."

/-- The guard reply for an empty chat prompt, bot.py line 119. -/
def chatGuardMsg : String :=
  "Please enter a message after " ++ apos ++ "chat:" ++ apos ++ "."

/-- The fallback reply for unrecognized text, bot.py line 126. -/
def unknownMsg : String :=
  "Unknown command. Type /help to see available options."

/-- The Command data model of spec section 3: the classified intent of one
inbound message. -/
inductive Command where
  | Greeting
  | Help
  | Search (query : String)
  | Solve (expression : String)
  | Joke
  | Chat (prompt : String)
  | Unknown (rawText : String)
deriving DecidableEq

/-- The classification performed by the if-chain of handle_message
(bot.py lines 77-126): strip the text, then compare its lowercasing
against the fixed rules in source order; payloads are sliced from the
stripped original-case text and stripped again. -/
def classify (rawText : String) : Command :=
  if pyLower (pyStrip rawText) == "/start" || pyLower (pyStrip rawText) == "hi" ||
      pyLower (pyStrip rawText) == "hello" then
    Command.Greeting
  else if pyLower (pyStrip rawText) == "/help" then
    Command.Help
  else if pyStartsWith (pyLower (pyStrip rawText)) "search:" then
    Command.Search (pyStrip (pyDrop (pyStrip rawText) 7))
  else if pyStartsWith (pyLower (pyStrip rawText)) "solve:" then
    Command.Solve (pyStrip (pyDrop (pyStrip rawText) 6))
  else if pyLower (pyStrip rawText) == "joke" then
    Command.Joke
  else if pyStartsWith (pyLower (pyStrip rawText)) "chat:" then
    Command.Chat (pyStrip (pyDrop (pyStrip rawText) 5))
  else
    Command.Unknown (pyStrip rawText)

/-- Case-insensitive equality of whole strings, the comparison named by
spec section 4.1. -/
def ciEq (a b : String) : Bool :=
  pyLower a == pyLower b

/-- Case-insensitive anchored match at the start of the text, the
comparison named by spec section 4.1. -/
def ciAnchored (t p : String) : Bool :=
  pyStartsWith (pyLower t) (pyLower p)

/-- Classifier written from the words of spec section 4.1: the first
matching rule in the fixed priority order 1-7 (Greeting, Help, Search,
Solve, Joke, Chat, Unknown), case-insensitive comparison of the whole
trimmed text or its anchored start, payload = remainder after the matched
rule text, trimmed. -/
def classifySpec (rawText : String) : Command :=
  if ciEq (pyStrip rawText) "/start" || ciEq (pyStrip rawText) "hi" ||
      ciEq (pyStrip rawText) "hello" then
    Command.Greeting
  else if ciEq (pyStrip rawText) "/help" then
    Command.Help
  else if ciAnchored (pyStrip rawText) "search:" then
    Command.Search (pyStrip (pyDrop (pyStrip rawText) (String.length "search:")))
  else if ciAnchored (pyStrip rawText) "solve:" then
    Command.Solve (pyStrip (pyDrop (pyStrip rawText) (String.length "solve:")))
  else if ciEq (pyStrip rawText) "joke" then
    Command.Joke
  else if ciAnchored (pyStrip rawText) "chat:" then
    Command.Chat (pyStrip (pyDrop (pyStrip rawText) (String.length "chat:")))
  else
    Command.Unknown (pyStrip rawText)

/-- Exact rational value used by the model of sympy evaluation: an
integer numerator over a nonzero integer denominator, not normalized. -/
structure Frac where
  n : Int
  d : Int
deriving DecidableEq

/-- Exact addition of fractions. -/
def Frac.add (a b : Frac) : Frac :=
  ⟨a.n * b.d + b.n * a.d, a.d * b.d⟩

/-- Exact subtraction of fractions. -/
def Frac.sub (a b : Frac) : Frac :=
  ⟨a.n * b.d - b.n * a.d, a.d * b.d⟩

/-- Exact multiplication of fractions. -/
def Frac.mul (a b : Frac) : Frac :=
  ⟨a.n * b.n, a.d * b.d⟩

/-- Exact division of fractions (the caller rules out a zero divisor). -/
def Frac.div (a b : Frac) : Frac :=
  ⟨a.n * b.d, a.d * b.n⟩

/-- Negation of a fraction. -/
def Frac.neg (a : Frac) : Frac :=
  ⟨-a.n, a.d⟩

/-- Whether the fraction is the value zero. -/
def Frac.isZero (a : Frac) : Bool :=
  a.n == 0

/-- The fraction denoted by a natural number. -/
def Frac.ofNat (m : Nat) : Frac :=
  ⟨m, 1⟩

/-- Token of an arithmetic expression, for the model of sympify. -/
inductive Tok where
  | num (q : Frac)
  | plus
  | minus
  | star
  | slash
  | lparen
  | rparen
deriving DecidableEq

/-- Decimal value of a digit list. -/
def digitsVal (ds : List Char) : Nat :=
  ds.foldl (fun acc c => acc * 10 + (c.toNat - 48)) 0

/-- Tokenizer for the arithmetic fragment accepted by the model of
sympify: integer and decimal literals, the four operators, parentheses,
whitespace.  Any other character makes the whole expression unparsable
(the model of a SympifyError).  The fuel argument only bounds recursion;
one unit is spent per consumed character, so input length plus one always
suffices. -/
def tokenize : Nat → List Char → Option (List Tok)
  | _, [] => some []
  | 0, _ :: _ => none
  | fuel + 1, c :: cs =>
    if isPySpace c then tokenize fuel cs
    else if c == '+' then (tokenize fuel cs).map (fun ts => Tok.plus :: ts)
    else if c == '-' then (tokenize fuel cs).map (fun ts => Tok.minus :: ts)
    else if c == '*' then (tokenize fuel cs).map (fun ts => Tok.star :: ts)
    else if c == '/' then (tokenize fuel cs).map (fun ts => Tok.slash :: ts)
    else if c == '(' then (tokenize fuel cs).map (fun ts => Tok.lparen :: ts)
    else if c == ')' then (tokenize fuel cs).map (fun ts => Tok.rparen :: ts)
    else if c.isDigit || c == '.' then
      match (c :: cs).dropWhile Char.isDigit with
      | '.' :: rest2 =>
        if ((c :: cs).takeWhile Char.isDigit).isEmpty &&
            (rest2.takeWhile Char.isDigit).isEmpty then
          none
        else
          (tokenize fuel (rest2.dropWhile Char.isDigit)).map
            (fun ts =>
              Tok.num
                ⟨(digitsVal ((c :: cs).takeWhile Char.isDigit)) *
                    10 ^ (rest2.takeWhile Char.isDigit).length +
                  digitsVal (rest2.takeWhile Char.isDigit),
                  (10 : Int) ^ (rest2.takeWhile Char.isDigit).length⟩ :: ts)
      | rest1 =>
        (tokenize fuel rest1).map
          (fun ts => Tok.num (Frac.ofNat (digitsVal ((c :: cs).takeWhile Char.isDigit))) :: ts)
    else
      none

/-- Recursive-descent evaluator for the arithmetic fragment, with the
usual precedence (factor over term over sum) and unary sign.  The lvl
argument selects the grammar production: 0 = sum, 1 = product,
2 = atom, 3 = trailing sum operators folding into acc, 4 = trailing
product operators folding into acc.  Fuel bounds the recursion depth. -/
def parseP : Nat → Nat → Frac → List Tok → Option (Frac × List Tok)
  | 0, _, _, _ => none
  | fuel + 1, lvl, acc, ts =>
    if lvl == 0 then
      match parseP fuel 1 (Frac.ofNat 0) ts with
      | none => none
      | some (v, rest) => parseP fuel 3 v rest
    else if lvl == 1 then
      match parseP fuel 2 (Frac.ofNat 0) ts with
      | none => none
      | some (v, rest) => parseP fuel 4 v rest
    else if lvl == 2 then
      match ts with
      | Tok.num q :: rest => some (q, rest)
      | Tok.lparen :: rest =>
        match parseP fuel 0 (Frac.ofNat 0) rest with
        | some (v, Tok.rparen :: rest2) => some (v, rest2)
        | _ => none
      | Tok.minus :: rest =>
        match parseP fuel 2 (Frac.ofNat 0) rest with
        | some (v, rest2) => some (Frac.neg v, rest2)
        | none => none
      | Tok.plus :: rest => parseP fuel 2 (Frac.ofNat 0) rest
      | _ => none
    else if lvl == 3 then
      match ts with
      | Tok.plus :: rest =>
        match parseP fuel 1 (Frac.ofNat 0) rest with
        | none => none
        | some (w, rest2) => parseP fuel 3 (Frac.add acc w) rest2
      | Tok.minus :: rest =>
        match parseP fuel 1 (Frac.ofNat 0) rest with
        | none => none
        | some (w, rest2) => parseP fuel 3 (Frac.sub acc w) rest2
      | _ => some (acc, ts)
    else
      match ts with
      | Tok.star :: rest =>
        match parseP fuel 2 (Frac.ofNat 0) rest with
        | none => none
        | some (w, rest2) => parseP fuel 4 (Frac.mul acc w) rest2
      | Tok.slash :: rest =>
        match parseP fuel 2 (Frac.ofNat 0) rest with
        | none => none
        | some (w, rest2) =>
          if Frac.isZero w then none else parseP fuel 4 (Frac.div acc w) rest2
      | _ => some (acc, ts)

/-- Model of sympify(expression).evalf() from the sympy library (external
to this repository): numerically evaluate an arithmetic expression; none
models a SympifyError, the exception the bot catches.  The model covers
the numeric arithmetic fragment (literals, + - * /, parentheses, unary
sign); expressions outside this fragment, including ones whose evaluation
is not finite, are treated as unparsable. -/
def sympifyEvalf (e : String) : Option Frac :=
  match tokenize (e.data.length + 1) e.data with
  | none => none
  | some ts =>
    match parseP (4 * ts.length + 8) 0 (Frac.ofNat 0) ts with
    | some (v, []) => some v
    | _ => none

/-- Decimal rendering of the evaluated number, the equivalent numeric
string of spec section 8 (an integer value prints with a trailing .0 as a
float does; a non-integer value is rendered as an exact fraction in this
model). -/
def floatStr (q : Frac) : String :=
  if q.n % q.d == 0 then toString (q.n / q.d) ++ ".0"
  else toString q.n ++ "/" ++ toString q.d

/-- A Python exception that bot.py does not catch on the failing path:
an HTTP-client transport error, a response-body JSON decoding error, or a
KeyError from subscripting a dict that lacks the key. -/
inductive PyErr where
  | transport
  | jsonDecode
  | keyError
deriving DecidableEq

/-- What an HTTP GET delivers to the caller: either the request itself
raises (transport error), or a response arrives with a status code and a
body. -/
inductive HttpResult (β : Type) where
  | transportError
  | response (status : Nat) (body : β)
deriving DecidableEq

/-- One entry of the items list in the search JSON; each field may be
absent. -/
structure SearchItem where
  title : Option String
  snippet : Option String
  link : Option String
deriving DecidableEq

/-- Body of the search response: either not JSON at all (resp.json()
raises), or JSON in which the items field may be absent. -/
inductive SearchBody where
  | notJson
  | json (items : Option (List SearchItem))
deriving DecidableEq

/-- The f-string of bot.py line 62: subscripting the item dict raises a
KeyError when a field is absent. -/
def formatSearchItem (it : SearchItem) : Except PyErr String :=
  match it.title, it.snippet, it.link with
  | some t, some s, some l => Except.ok (t ++ "\n" ++ s ++ "\n" ++ l)
  | _, _, _ => Except.error PyErr.keyError

/-- google_search of bot.py lines 46-63, as a function of the upstream
HTTP outcome.  Except.error models an exception escaping the function:
the code has no try/except, so a transport error, a non-JSON body and a
field-missing item all propagate. -/
def google_search (query : String) (resp : HttpResult SearchBody) : Except PyErr String :=
  match resp with
  | HttpResult.transportError => Except.error PyErr.transport
  | HttpResult.response status body =>
    if status ≠ 200 then
      Except.ok ("Search error: HTTP " ++ toString status)
    else
      match body with
      | SearchBody.notJson => Except.error PyErr.jsonDecode
      | SearchBody.json itemsOpt =>
        if (itemsOpt.getD []).isEmpty then
          Except.ok "No results found."
        else
          match (itemsOpt.getD []).mapM formatSearchItem with
          | Except.ok results => Except.ok (String.intercalate "\n\n" results)
          | Except.error e => Except.error e

/-- Decidable equality of handler outcomes, for concrete evaluation. -/
instance : DecidableEq (Except PyErr String) := fun a b =>
  match a, b with
  | Except.ok x, Except.ok y =>
    if h : x = y then isTrue (by rw [h])
    else isFalse (by intro hc; cases hc; exact h rfl)
  | Except.ok _, Except.error _ => isFalse (fun hc => Except.noConfusion hc)
  | Except.error _, Except.ok _ => isFalse (fun hc => Except.noConfusion hc)
  | Except.error x, Except.error y =>
    if h : x = y then isTrue (by rw [h])
    else isFalse (by intro hc; cases hc; exact h rfl)

/-- Body of the joke response: either not JSON (resp.json() raises), or
JSON in which setup and punchline may each be absent. -/
inductive JokeBody where
  | notJson
  | json (setup : Option String) (punchline : Option String)
deriving DecidableEq

/-- fetch_joke of bot.py lines 66-73, as a function of the upstream HTTP
outcome.  On a 200 JSON body the reply is built with data.get, so an
absent field becomes None and the f-string prints it as the text None. -/
def fetch_joke (resp : HttpResult JokeBody) : Except PyErr String :=
  match resp with
  | HttpResult.transportError => Except.error PyErr.transport
  | HttpResult.response status body =>
    if status ≠ 200 then
      Except.ok "❌ Failed to fetch a joke."
    else
      match body with
      | JokeBody.notJson => Except.error PyErr.jsonDecode
      | JokeBody.json s p =>
        Except.ok (pyFormatOptStr s ++ "\n" ++ pyFormatOptStr p)

/-- One prediction of the Vertex AI response; the content field may be
absent. -/
structure AiPrediction where
  content : Option String
deriving DecidableEq

/-- What the Vertex AI predict call delivers: a predictions list, or any
exception raised inside the try block. -/
inductive AiResult where
  | predictions (preds : List AiPrediction)
  | failure (err : String)
deriving DecidableEq

/-- chat_with_vertex_ai of bot.py lines 30-43.  The bare except catches
every exception, including the IndexError from predictions[0] on an empty
list, so the function always returns a string. -/
def chat_with_vertex_ai (prompt : String) (resp : AiResult) : String :=
  match resp with
  | AiResult.failure e => "⚠️ Vertex AI error: " ++ e
  | AiResult.predictions [] => "⚠️ Vertex AI error: list index out of range"
  | AiResult.predictions (p :: _) => p.content.getD "🤖 No response received."

/-- The network environment of one dispatch: what each upstream call
would deliver if issued. -/
structure Env where
  searchResp : HttpResult SearchBody
  jokeResp : HttpResult JokeBody
  aiResp : AiResult

/-- The dispatcher of spec section 4.2: executes one Command against the
environment, returning the ordered list of replies handed to the sink and
the exception, if any, that escapes the handler after those replies were
sent. -/
def dispatch (cmd : Command) (env : Env) : List String × Option PyErr :=
  match cmd with
  | Command.Greeting => ([greetingMsg], none)
  | Command.Help => ([helpMsg], none)
  | Command.Search q =>
    match google_search q env.searchResp with
    | Except.ok result => ([searchingMsg, result], none)
    | Except.error e => ([searchingMsg], some e)
  | Command.Solve e =>
    match sympifyEvalf e with
    | some r => (["Result: " ++ floatStr r], none)
    | none => ([invalidExprMsg], none)
  | Command.Joke =>
    match fetch_joke env.jokeResp with
    | Except.ok joke => ([joke], none)
    | Except.error e => ([], some e)
  | Command.Chat p =>
    if p == "" then ([chatGuardMsg], none)
    else ([thinkingMsg, chat_with_vertex_ai p env.aiResp], none)
  | Command.Unknown _ => ([unknownMsg], none)

/-- handle_message of bot.py lines 77-126, translated clause by clause:
the returned list is the sequence of message.answer calls in order, and
the Option PyErr is the exception escaping the handler, if any. -/
def handle_message (rawText : String) (env : Env) : List String × Option PyErr :=
  if pyLower (pyStrip rawText) == "/start" || pyLower (pyStrip rawText) == "hi" ||
      pyLower (pyStrip rawText) == "hello" then
    ([greetingMsg], none)
  else if pyLower (pyStrip rawText) == "/help" then
    ([helpMsg], none)
  else if pyStartsWith (pyLower (pyStrip rawText)) "search:" then
    match google_search (pyStrip (pyDrop (pyStrip rawText) 7)) env.searchResp with
    | Except.ok result => ([searchingMsg, result], none)
    | Except.error e => ([searchingMsg], some e)
  else if pyStartsWith (pyLower (pyStrip rawText)) "solve:" then
    match sympifyEvalf (pyStrip (pyDrop (pyStrip rawText) 6)) with
    | some r => (["Result: " ++ floatStr r], none)
    | none => ([invalidExprMsg], none)
  else if pyLower (pyStrip rawText) == "joke" then
    match fetch_joke env.jokeResp with
    | Except.ok joke => ([joke], none)
    | Except.error e => ([], some e)
  else if pyStartsWith (pyLower (pyStrip rawText)) "chat:" then
    if pyStrip (pyDrop (pyStrip rawText) 5) == "" then
      ([chatGuardMsg], none)
    else
      ([thinkingMsg,
        chat_with_vertex_ai (pyStrip (pyDrop (pyStrip rawText) 5)) env.aiResp], none)
  else
    ([unknownMsg], none)

/-- The if-chain of handle_message factors through the Command data
model: handling a message is dispatching its classification.  Shared
bridge lemma for the claim theorems below. -/
theorem handle_message_eq_dispatch (raw : String) (env : Env) :
    handle_message raw env = dispatch (classify raw) env := by
  unfold handle_message classify dispatch
  split_ifs <;> simp_all


/-- C1: the classifier embedded from the handle_message if-chain agrees,
on every input text, with the classifier written from the rules 1-7 of
spec section 4.1 in their fixed priority order: it produces exactly one
Command variant, with the same extracted payload.  classify is a total
Lean function, so totality and determinism (same input, same variant and
payload) hold by construction. -/
theorem c1_classifier_refines_spec : ∀ raw : String, classify raw = classifySpec raw := by
  intro raw
  unfold classify classifySpec ciEq ciAnchored
  simp only [(by decide : pyLower "/start" = "/start"),
    (by decide : pyLower "hi" = "hi"),
    (by decide : pyLower "hello" = "hello"),
    (by decide : pyLower "/help" = "/help"),
    (by decide : pyLower "search:" = "search:"),
    (by decide : pyLower "solve:" = "solve:"),
    (by decide : pyLower "joke" = "joke"),
    (by decide : pyLower "chat:" = "chat:"),
    (by decide : String.length "search:" = 7),
    (by decide : String.length "solve:" = 6),
    (by decide : String.length "chat:" = 5)]

/-- C5: for each of the three payload-carrying variants, the extracted
payload is exactly the remainder of the stripped text after the matched
rule text, stripped of surrounding whitespace; in particular
search:  python  yields the query python. -/
theorem c5_payload_extraction :
    (∀ raw q, classify raw = Command.Search q → q = pyStrip (pyDrop (pyStrip raw) 7)) ∧
    (∀ raw e, classify raw = Command.Solve e → e = pyStrip (pyDrop (pyStrip raw) 6)) ∧
    (∀ raw p, classify raw = Command.Chat p → p = pyStrip (pyDrop (pyStrip raw) 5)) ∧
    classify "search:  python " = Command.Search "python" := by
  refine ⟨?_, ?_, ?_, by decide⟩ <;>
  · intro raw x h
    unfold classify at h
    split_ifs at h <;> simp_all

/-- Witness for c5_payload_extraction at the concrete input of the
claim. -/
theorem c5_payload_extraction_witness :
    "python" = pyStrip (pyDrop (pyStrip "search:  python ") 7) :=
  c5_payload_extraction.1 "search:  python " "python" (by decide)

/-- C9: the payload is sliced from the stripped original-case text, not
from the lowercased copy used for matching: prefix matching is
case-insensitive while the payload keeps its original character case. -/
theorem c9_payload_preserves_case :
    classify "CHAT: Hello World" = Command.Chat "Hello World" ∧
    classify "Search: PyThOn" = Command.Search "PyThOn" ∧
    classify "SOLVE: 2+2" = Command.Solve "2+2" := by decide

/-- C2: the Solve branch catches the parse failure locally: an
unparsable expression yields exactly the invalid-expression reply, the
branch never lets an error escape for any input, and the concrete inputs
behave as the spec states (2+2*5 replies Result: 12.0 and 2+ replies the
invalid-expression message). -/
theorem c2_solve_handler :
    (∀ e env, sympifyEvalf e = none →
      dispatch (Command.Solve e) env = ([invalidExprMsg], none)) ∧
    (∀ e env, (dispatch (Command.Solve e) env).2 = none) ∧
    (∀ env, handle_message "solve:2+2*5" env = (["Result: 12.0"], none)) ∧
    (∀ env, handle_message "solve:2+" env = ([invalidExprMsg], none)) := by
  refine ⟨?_, ?_, fun env => ?_, fun env => ?_⟩
  · intro e env h
    simp only [dispatch, h]
  · intro e env
    simp only [dispatch]
    cases sympifyEvalf e <;> rfl
  · rw [handle_message_eq_dispatch,
      (by decide : classify "solve:2+2*5" = Command.Solve "2+2*5")]
    rfl
  · rw [handle_message_eq_dispatch,
      (by decide : classify "solve:2+" = Command.Solve "2+")]
    rfl

/-- Witness for c2_solve_handler at the concrete unparsable input. -/
theorem c2_solve_handler_witness :
    dispatch (Command.Solve "2+")
      ⟨HttpResult.transportError, HttpResult.transportError, AiResult.failure ""⟩ =
      ([invalidExprMsg], none) :=
  c2_solve_handler.1 "2+"
    ⟨HttpResult.transportError, HttpResult.transportError, AiResult.failure ""⟩
    (by decide)

/-- C4: for a Search whose handler returns a result and for a Chat with
a non-empty prompt, the reply list handed to the sink is exactly the
acknowledgement followed by the result, in that order. -/
theorem c4_ack_before_result :
    (∀ raw env q r, classify raw = Command.Search q →
        google_search q env.searchResp = Except.ok r →
        (handle_message raw env).1 = [searchingMsg, r]) ∧
    (∀ raw env p, classify raw = Command.Chat p → p ≠ "" →
        (handle_message raw env).1 = [thinkingMsg, chat_with_vertex_ai p env.aiResp]) := by
  constructor
  · intro raw env q r hc hr
    rw [handle_message_eq_dispatch, hc]
    simp only [dispatch, hr]
  · intro raw env p hc hp
    rw [handle_message_eq_dispatch, hc]
    simp [dispatch, hp]

/-- Witness for c4_ack_before_result at concrete inputs. -/
theorem c4_ack_before_result_witness :
    (handle_message "search: python"
        ⟨HttpResult.response 200 (SearchBody.json (some [⟨some "T", some "S", some "L"⟩])),
          HttpResult.transportError, AiResult.failure ""⟩).1 = [searchingMsg, "T\nS\nL"] ∧
    (handle_message "chat: hi"
        ⟨HttpResult.transportError, HttpResult.transportError,
          AiResult.predictions [⟨some "ok"⟩]⟩).1 =
      [thinkingMsg, chat_with_vertex_ai "hi" (AiResult.predictions [⟨some "ok"⟩])] :=
  ⟨c4_ack_before_result.1 "search: python" _ "python" "T\nS\nL" (by decide) rfl,
    c4_ack_before_result.2 "chat: hi" _ "hi" (by decide) (by decide)⟩

/-- C7: a Chat command with empty prompt yields exactly the
prompt-required reply and stops; the result does not depend on the
environment of upstream calls, so no network call is issued and no
acknowledgement is sent; the trimmed text chat: followed by whitespace
only is concretely such a message. -/
theorem c7_chat_empty_prompt :
    (∀ env, dispatch (Command.Chat "") env = ([chatGuardMsg], none)) ∧
    (∀ env env2, dispatch (Command.Chat "") env = dispatch (Command.Chat "") env2) ∧
    (∀ env, handle_message "chat:   " env = ([chatGuardMsg], none)) := by
  refine ⟨fun env => rfl, fun env env2 => rfl, fun env => ?_⟩
  rw [handle_message_eq_dispatch, (by decide : classify "chat:   " = Command.Chat "")]
  rfl

/-- C10: the Solve branch has no empty-input guard analogous to the Chat
branch: the empty expression goes to the evaluator, whose parse failure
is caught, and the single invalid-expression reply is sent with no
escaping error, both for solve: alone and for solve: followed only by
whitespace. -/
theorem c10_solve_no_empty_guard :
    sympifyEvalf "" = none ∧
    (∀ env, handle_message "solve:" env = ([invalidExprMsg], none)) ∧
    (∀ env, handle_message "solve:   " env = ([invalidExprMsg], none)) := by
  refine ⟨by decide, fun env => ?_, fun env => ?_⟩
  · rw [handle_message_eq_dispatch, (by decide : classify "solve:" = Command.Solve "")]
    rfl
  · rw [handle_message_eq_dispatch, (by decide : classify "solve:   " = Command.Solve "")]
    rfl

/-- C3 counterexample: the search handler is not raise-free.  A 200
response whose result item lacks the title field makes the item
subscript raise a KeyError that escapes google_search, and a transport
exception during the GET also escapes, instead of resolving to a
returned string. -/
theorem c3_google_search_can_raise :
    google_search "q"
        (HttpResult.response 200 (SearchBody.json (some [⟨none, some "S", some "L"⟩]))) =
      Except.error PyErr.keyError ∧
    google_search "q" HttpResult.transportError = Except.error PyErr.transport := by
  decide

/-- C3 amended: a non-200 status yields a returned string embedding the
status code, a 200 JSON body with a missing items field or an empty
items list yields the no-results string, but the handler is not
raise-free: a transport exception, a non-JSON body, and a result item
missing a field all propagate out of google_search as errors. -/
theorem c3_google_search_amended :
    (∀ q st b, st ≠ 200 →
      google_search q (HttpResult.response st b) =
        Except.ok ("Search error: HTTP " ++ toString st)) ∧
    (∀ q, google_search q (HttpResult.response 200 (SearchBody.json none)) =
      Except.ok "No results found.") ∧
    (∀ q, google_search q (HttpResult.response 200 (SearchBody.json (some []))) =
      Except.ok "No results found.") ∧
    (∀ q, google_search q HttpResult.transportError = Except.error PyErr.transport) ∧
    (∀ q, google_search q (HttpResult.response 200 SearchBody.notJson) =
      Except.error PyErr.jsonDecode) ∧
    (∀ q sn l rest, google_search q
        (HttpResult.response 200 (SearchBody.json (some (⟨none, sn, l⟩ :: rest)))) =
      Except.error PyErr.keyError) := by
  refine ⟨?_, fun q => rfl, fun q => rfl, fun q => rfl, fun q => rfl, ?_⟩
  · intro q st b h
    simp [google_search, h]
  · intro q sn l rest
    rfl

/-- Witness for c3_google_search_amended at a concrete non-200 status. -/
theorem c3_google_search_amended_witness :
    google_search "x" (HttpResult.response 403 SearchBody.notJson) =
      Except.ok ("Search error: HTTP " ++ toString 403) :=
  c3_google_search_amended.1 "x" 403 SearchBody.notJson (by decide)

/-- C6 counterexample: in a 200 joke response with the setup field
absent, the reply renders the missing field as the text None (the Python
str of None), not as an empty line. -/
theorem c6_joke_missing_field_renders_none :
    fetch_joke (HttpResult.response 200 (JokeBody.json none (some "a"))) =
      Except.ok "None\na" ∧
    fetch_joke (HttpResult.response 200 (JokeBody.json none (some "a"))) ≠
      Except.ok "\na" := by
  decide

/-- C6 amended: a 200 joke response returns setup and punchline joined
by a newline and never fails, but a missing field is rendered as the
literal text None on its line rather than as an empty line. -/
theorem c6_fetch_joke_amended :
    (∀ s p, fetch_joke (HttpResult.response 200 (JokeBody.json s p)) =
      Except.ok (pyFormatOptStr s ++ "\n" ++ pyFormatOptStr p)) ∧
    fetch_joke (HttpResult.response 200 (JokeBody.json none (some "b"))) =
      Except.ok "None\nb" := by
  exact ⟨fun s p => rfl, by decide⟩

/-- C8 counterexample: the reply count is not always one or two.  When
the joke upstream call raises a transport error, the exception escapes
fetch_joke and handle_message before any reply is sent: the sink
receives zero messages. -/
theorem c8_joke_failure_zero_replies :
    handle_message "joke"
        ⟨HttpResult.transportError, HttpResult.transportError, AiResult.failure ""⟩ =
      ([], some PyErr.transport) := by
  decide

/-- C8 amended: whenever no uncaught upstream error escapes the handler,
the router sends exactly one or two replies: two for Search (whose
handler returned) and for Chat with a non-empty prompt, one for
Greeting, Help, Solve, empty-prompt Chat, Joke (whose handler returned)
and Unknown.  When the search or joke handler raises, the Search ack may
be the only reply and Joke may produce zero replies. -/
theorem c8_reply_count_amended :
    (∀ raw env, (handle_message raw env).2 = none →
      (handle_message raw env).1.length = 1 ∨ (handle_message raw env).1.length = 2) ∧
    (∀ raw env q, classify raw = Command.Search q → (handle_message raw env).2 = none →
      (handle_message raw env).1.length = 2) ∧
    (∀ raw env p, classify raw = Command.Chat p → p ≠ "" →
      (handle_message raw env).1.length = 2) ∧
    (∀ raw env p, classify raw = Command.Chat p → p = "" →
      (handle_message raw env).1.length = 1) ∧
    (∀ raw env e, classify raw = Command.Solve e →
      (handle_message raw env).1.length = 1) ∧
    (∀ raw env, (classify raw = Command.Greeting ∨ classify raw = Command.Help ∨
        (∃ t, classify raw = Command.Unknown t)) →
      (handle_message raw env).1.length = 1) ∧
    (∀ raw env, classify raw = Command.Joke → (handle_message raw env).2 = none →
      (handle_message raw env).1.length = 1) := by
  refine ⟨?_, ?_, ?_, ?_, ?_, ?_, ?_⟩
  · intro raw env h
    rw [handle_message_eq_dispatch] at h ⊢
    cases hc : classify raw
    case Greeting => simp [dispatch]
    case Help => simp [dispatch]
    case Search q =>
      rw [hc] at h
      simp only [dispatch] at h ⊢
      cases hg : google_search q env.searchResp <;> simp [hg] at h ⊢
    case Solve e =>
      simp only [dispatch]
      cases hs : sympifyEvalf e <;> simp [hs]
    case Joke =>
      rw [hc] at h
      simp only [dispatch] at h ⊢
      cases hj : fetch_joke env.jokeResp <;> simp [hj] at h ⊢
    case Chat p =>
      simp only [dispatch]
      by_cases hp : p = "" <;> simp [hp]
    case Unknown t => simp [dispatch]
  · intro raw env q hc h
    rw [handle_message_eq_dispatch] at h ⊢
    rw [hc] at h ⊢
    simp only [dispatch] at h ⊢
    cases hg : google_search q env.searchResp <;> simp [hg] at h ⊢
  · intro raw env p hc hp
    rw [handle_message_eq_dispatch, hc]
    simp [dispatch, hp]
  · intro raw env p hc hp
    rw [handle_message_eq_dispatch, hc]
    simp [dispatch, hp]
  · intro raw env e hc
    rw [handle_message_eq_dispatch, hc]
    simp only [dispatch]
    cases hs : sympifyEvalf e <;> simp [hs]
  · intro raw env h3
    rcases h3 with hc | hc | ⟨t, hc⟩ <;> rw [handle_message_eq_dispatch, hc] <;> simp [dispatch]
  · intro raw env hc h
    rw [handle_message_eq_dispatch] at h ⊢
    rw [hc] at h ⊢
    simp only [dispatch] at h ⊢
    cases hj : fetch_joke env.jokeResp <;> simp [hj] at h ⊢

/-- Witness for c8_reply_count_amended at a concrete greeting input. -/
theorem c8_reply_count_amended_witness :
    (handle_message "hi"
        ⟨HttpResult.transportError, HttpResult.transportError, AiResult.failure ""⟩).1.length = 1 ∨
    (handle_message "hi"
        ⟨HttpResult.transportError, HttpResult.transportError, AiResult.failure ""⟩).1.length = 2 :=
  c8_reply_count_amended.1 "hi"
    ⟨HttpResult.transportError, HttpResult.transportError, AiResult.failure ""⟩ (by decide)
